import Mathlib

/-!
Shallow embedding of the ayame IRC daemon (diath/ayame) core state machine:
channels, sessions, and the command handlers that the specification talks
about.  Rust `HashMap`s are modelled as association lists (only key lookup,
insertion and removal are ever used), Rust `HashSet`s as lists with
membership-guarded insertion.  All definitions are translated from the
sources under `src/`; the handful of places where the sources reference a
function whose body is not provided are modelled from the specification and
marked as such in their doc comments.
-/

namespace Ayame

/-- Association-list lookup, modelling `HashMap::get` (string keys). -/
def alGet {α : Type} (k : String) : List (String × α) → Option α
  | [] => none
  | (k2, v) :: rest => if k2 = k then some v else alGet k rest

/-- Association-list removal, modelling `HashMap::remove`. -/
def alErase {α : Type} (k : String) : List (String × α) → List (String × α)
  | [] => []
  | (k2, v) :: rest => if k2 = k then alErase k rest else (k2, v) :: alErase k rest

/-- Association-list insert-or-replace, modelling `HashMap::insert`. -/
def alSet {α : Type} (k : String) (v : α) (l : List (String × α)) : List (String × α) :=
  (k, v) :: alErase k l

/-- Membership test for a string set, modelling `HashSet::contains`. -/
def setHas (x : String) : List String → Bool
  | [] => false
  | y :: rest => if y = x then true else setHas x rest

/-- Modelling `HashSet::insert`: returns the new set and whether the element was new. -/
def setInsert (x : String) (s : List String) : List String × Bool :=
  if setHas x s then (s, false) else (x :: s, true)

/-- Set removal, modelling `HashSet::remove`: returns the new set and whether the
element was present. -/
def setRemove (x : String) : List String → List String × Bool
  | [] => ([], false)
  | y :: rest =>
    if y = x then (rest, true)
    else
      let r := setRemove x rest
      (y :: r.1, r.2)

/-- Numeric reply names, from `src/replies.rs` plus the variants that the
handlers in `client.rs`/`server.rs` use but that are missing from the
provided `replies.rs`. -/
inductive NumericReply where
  | RplWelcome | RplYourHost | RplCreated
  | RplNoTopic | RplTopic | RplTopicSet
  | RplVersion | RplMotd | RplMotdStart | RplEndOfMotd
  | RplYoureOper | RplRehashing | RplTime
  | ErrNoSuchNick | ErrNoSuchServer | ErrNoSuchChannel | ErrCannotSendToChan
  | ErrNoRecipient | ErrNoTextToSend | ErrUnknownCommand | ErrNoMotd
  | ErrNoNicknameGiven | ErrErroneousNickname | ErrNicknameInUse
  | ErrNotOnChannel | ErrSummonDisabled | ErrNeedMoreParams
  | ErrAlreadyRegistered | ErrPasswordMismatch | ErrNoPrivileges
  | RplAway | RplNowAway | RplUnAway
  | RplChannelModeIs | RplNamReply | RplEndOfNames | RplInviting
  | ErrUserNotInChannel | ErrKeySet | ErrChannelIsFull | ErrUnknownMode
  | ErrInviteOnlyChan | ErrBannedFromChan | ErrBadChannelKey
  | ErrChanOpPrivsNeeded
deriving Repr, DecidableEq

/-- Modelled from the spec: the numeric codes of the reply variants missing from
the provided `src/replies.rs` (`RplAway` 301, `RplUnAway` 305, `RplNowAway` 306,
`RplChannelModeIs` 324, `RplInviting` 341, `RplNamReply` 353, `RplEndOfNames` 366,
`ErrUserNotInChannel` 441, `ErrKeySet` 467, `ErrChannelIsFull` 471,
`ErrUnknownMode` 472, `ErrInviteOnlyChan` 473, `ErrBannedFromChan` 474,
`ErrBadChannelKey` 475, `ErrChanOpPrivsNeeded` 482) are taken from spec section 4.2,
4.3 and the numeric list in section 6; all other values are the discriminants
written in `src/replies.rs`. -/
def NumericReply.code : NumericReply → Nat
  | .RplWelcome => 1
  | .RplYourHost => 2
  | .RplCreated => 3
  | .RplNoTopic => 331
  | .RplTopic => 332
  | .RplTopicSet => 333
  | .RplVersion => 351
  | .RplMotd => 372
  | .RplMotdStart => 375
  | .RplEndOfMotd => 376
  | .RplYoureOper => 381
  | .RplRehashing => 382
  | .RplTime => 391
  | .ErrNoSuchNick => 401
  | .ErrNoSuchServer => 402
  | .ErrNoSuchChannel => 403
  | .ErrCannotSendToChan => 404
  | .ErrNoRecipient => 411
  | .ErrNoTextToSend => 412
  | .ErrUnknownCommand => 421
  | .ErrNoMotd => 422
  | .ErrNoNicknameGiven => 431
  | .ErrErroneousNickname => 432
  | .ErrNicknameInUse => 433
  | .ErrNotOnChannel => 442
  | .ErrSummonDisabled => 445
  | .ErrNeedMoreParams => 461
  | .ErrAlreadyRegistered => 462
  | .ErrPasswordMismatch => 464
  | .ErrNoPrivileges => 481
  | .RplAway => 301
  | .RplNowAway => 306
  | .RplUnAway => 305
  | .RplChannelModeIs => 324
  | .RplNamReply => 353
  | .RplEndOfNames => 366
  | .RplInviting => 341
  | .ErrUserNotInChannel => 441
  | .ErrKeySet => 467
  | .ErrChannelIsFull => 471
  | .ErrUnknownMode => 472
  | .ErrInviteOnlyChan => 473
  | .ErrBannedFromChan => 474
  | .ErrBadChannelKey => 475
  | .ErrChanOpPrivsNeeded => 482

/-- Observable output events of the handlers: a numeric reply sent to a session
(via `Client::send_numeric_reply`, recorded as target nick, reply and body), a
raw line sent to a session (via `Client::send_raw`), or a message handed to a
service (via `Service::on_message`). -/
inductive Ev where
  | numeric (target : String) (reply : NumericReply) (body : String)
  | raw (target : String) (line : String)
  | toService (name : String) (parts : List String)
deriving Repr, DecidableEq

/-- Per-participant role bits, from `ChannelUserModes` in `src/channel.rs`. -/
structure ChannelUserModes where
  owner : Bool
  admin : Bool
  operator : Bool
  half_operator : Bool
  voiced : Bool
deriving Repr, DecidableEq

/-- `ChannelUserModes::is_owner`. -/
def ChannelUserModes.is_owner (m : ChannelUserModes) : Bool := m.owner

/-- `ChannelUserModes::is_admin`. -/
def ChannelUserModes.is_admin (m : ChannelUserModes) (explicit : Bool) : Bool :=
  if explicit then m.admin else m.owner || m.admin

/-- `ChannelUserModes::is_operator`. -/
def ChannelUserModes.is_operator (m : ChannelUserModes) (explicit : Bool) : Bool :=
  if explicit then m.operator else m.owner || m.admin || m.operator

/-- `ChannelUserModes::is_half_operator`. -/
def ChannelUserModes.is_half_operator (m : ChannelUserModes) (explicit : Bool) : Bool :=
  if explicit then m.half_operator
  else m.owner || m.admin || m.operator || m.half_operator

/-- `ChannelUserModes::is_voiced`. -/
def ChannelUserModes.is_voiced (m : ChannelUserModes) (explicit : Bool) : Bool :=
  if explicit then m.voiced
  else m.owner || m.admin || m.operator || m.half_operator || m.voiced

/-- `ChannelUserModes::get_prefix` (renamed, returns the role sigil). -/
def ChannelUserModes.get_prefix_str (m : ChannelUserModes) : String :=
  if m.is_owner then "~"
  else if m.is_admin false then "&"
  else if m.is_operator false then "@"
  else if m.is_half_operator false then "%"
  else if m.is_voiced false then "+"
  else ""

/-- Channel topic record, from `ChannelTopic` in `src/channel.rs`. -/
structure ChannelTopic where
  text : String
  set_by : String
  set_at : Nat
deriving Repr, DecidableEq

/-- Channel mode record, from `ChannelModes` in `src/channel.rs`. -/
structure ChannelModes where
  moderated : Bool
  invite_only : Bool
  password : String
  limit : Nat
  no_external_messages : Bool
  secret : Bool
  restrict_topic : Bool
deriving Repr, DecidableEq

/-- A channel, from `Channel` in `src/channel.rs` (locks erased; the
participants map and the three string sets are association list / list). -/
structure Channel where
  name : String
  topic : ChannelTopic
  modes : ChannelModes
  participants : List (String × ChannelUserModes)
  invites : List String
  bans : List String
  ban_exceptions : List String
deriving Repr, DecidableEq

/-- `Channel::new`. -/
def Channel.new (name : String) : Channel :=
  { name := name
    topic := { text := "", set_by := "", set_at := 0 }
    modes :=
      { moderated := false
        invite_only := false
        password := ""
        limit := 0
        no_external_messages := true
        secret := false
        restrict_topic := true }
    participants := []
    invites := []
    bans := []
    ban_exceptions := [] }

/-- `Channel::has_participant`. -/
def Channel.has_participant (c : Channel) (name : String) : Bool :=
  (alGet name c.participants).isSome

/-- `Channel::is_invited`. -/
def Channel.is_invited (c : Channel) (name : String) : Bool :=
  setHas name c.invites

/-- `Channel::is_banned`: exact set membership of the prefix in the ban set. -/
def Channel.is_banned (c : Channel) (pfx : String) : Bool :=
  setHas pfx c.bans

/-- `Channel::is_ban_exempt`: exact set membership in the exception set. -/
def Channel.is_ban_exempt (c : Channel) (pfx : String) : Bool :=
  setHas pfx c.ban_exceptions

/-- Modelled from the spec: `Channel::is_invite_exempt` is called by
`Server::join_channel` but its body is not among the provided sources; spec
section 4.3 step 3 reads the `+i` exemption as the requester user prefix being
in the ban-exception set. -/
def Channel.is_invite_exempt (c : Channel) (pfx : String) : Bool :=
  setHas pfx c.ban_exceptions

/-- `Channel::part`: remove the nick if present, reporting success. -/
def Channel.part (c : Channel) (name : String) : Channel × Bool :=
  if c.has_participant name then
    ({ c with participants := alErase name c.participants }, true)
  else
    (c, false)

/-- `Channel::remove`. -/
def Channel.remove (c : Channel) (name : String) : Channel :=
  { c with participants := alErase name c.participants }

/-- `Channel::is_operator` (inclusive test on the participant entry). -/
def Channel.is_operator (c : Channel) (nick : String) : Bool :=
  match alGet nick c.participants with
  | some m => m.is_operator false
  | none => false

/-- `Channel::is_voiced` (inclusive test on the participant entry). -/
def Channel.is_voiced (c : Channel) (nick : String) : Bool :=
  match alGet nick c.participants with
  | some m => m.is_voiced false
  | none => false

/-- Modelled from the spec: `Channel::is_half_operator` is called by
`Server::kick_channel` but its body is not among the provided sources; spec
section 4.6 requires the KICK caller to be half-op or above with inclusive
is-X tests, mirroring the provided `Channel::is_operator`. -/
def Channel.is_half_operator (c : Channel) (nick : String) : Bool :=
  match alGet nick c.participants with
  | some m => m.is_half_operator false
  | none => false

/-- `Channel::has_access` from `src/channel.rs`: the kick ACL between two
participant entries. -/
def Channel.has_access (c : Channel) (nick other : String) : Bool :=
  match alGet nick c.participants with
  | some modes =>
    match alGet other c.participants with
    | some modes_other =>
      if modes.is_owner then true
      else if modes.is_admin false then !modes_other.is_owner
      else if modes.is_operator false then !(modes_other.is_admin false)
      else if modes.is_half_operator false then !(modes_other.is_operator false)
      else false
    | none => false
  | none => false

/-- `Channel::get_modes_description`: the `+`-prefixed letter string, with the
key and limit parameters appended when `with_params` is set (the source always
appends the separating space in that case). -/
def Channel.get_modes_description (c : Channel) (with_params : Bool) : String :=
  let desc := "+"
  let desc := if c.modes.moderated then desc ++ "m" else desc
  let desc := if c.modes.invite_only then desc ++ "i" else desc
  let desc := if c.modes.password.length != 0 then desc ++ "k" else desc
  let desc := if c.modes.limit != 0 then desc ++ "l" else desc
  let desc := if c.modes.no_external_messages then desc ++ "n" else desc
  let desc := if c.modes.secret then desc ++ "s" else desc
  let desc := if c.modes.restrict_topic then desc ++ "t" else desc
  if with_params then
    let params : List String :=
      (if c.modes.password.length != 0 then [c.modes.password] else []) ++
      (if c.modes.limit != 0 then [toString c.modes.limit] else [])
    desc ++ " " ++ String.intercalate " " params
  else desc

/-- In-place value replacement, modelling mutation through `HashMap::get_mut`:
the value of an existing key is replaced, an absent key leaves the list
unchanged. -/
def alUpdate {α : Type} (k : String) (v : α) : List (String × α) → List (String × α)
  | [] => []
  | (k2, v2) :: rest => if k2 = k then (k2, v) :: rest else (k2, v2) :: alUpdate k v rest

/-- `Channel::can_toggle_user_mode` from `src/channel.rs`. -/
def Channel.can_toggle_user_mode (c : Channel) (set_by : String) (mode : Char)
    (flag : Bool) : Bool :=
  match alGet set_by c.participants with
  | some modes =>
    match mode with
    | 'q' => modes.is_owner
    | 'a' => modes.is_admin false
    | 'o' => modes.is_operator false
    | 'h' => modes.is_half_operator false
    | 'v' => if flag then modes.is_half_operator false else modes.is_voiced false
    | _ => false
  | none => false

/-- The per-entry body of `Channel::toggle_user_mode`: flip the addressed role
bit when it differs from the requested polarity, reporting whether anything
changed. -/
def toggleUserModeEntry (m : ChannelUserModes) (mode : Char) (flag : Bool) :
    ChannelUserModes × Bool :=
  match mode with
  | 'q' => if m.owner != flag then ({ m with owner := flag }, true) else (m, false)
  | 'a' => if m.admin != flag then ({ m with admin := flag }, true) else (m, false)
  | 'o' => if m.operator != flag then ({ m with operator := flag }, true) else (m, false)
  | 'h' =>
    if m.half_operator != flag then ({ m with half_operator := flag }, true) else (m, false)
  | 'v' => if m.voiced != flag then ({ m with voiced := flag }, true) else (m, false)
  | _ => (m, false)

/-- `Channel::toggle_user_mode` from `src/channel.rs`. -/
def Channel.toggle_user_mode (c : Channel) (nick : String) (mode : Char) (flag : Bool) :
    Channel × Bool :=
  match alGet nick c.participants with
  | some m =>
    let r := toggleUserModeEntry m mode flag
    ({ c with participants := alUpdate nick r.1 c.participants }, r.2)
  | none => (c, false)

/-- Accumulator of the character loop inside `Channel::toggle_modes`: the
channel being mutated, the current polarity flag, the positional parameter
index, the accumulated change string with its parameters, and the emitted
replies. -/
structure ToggleAcc where
  c : Channel
  flag : Bool
  index : Nat
  changes : String
  changes_params : List String
  evs : List Ev
deriving Repr

/-- One iteration of the `for ch in chars` loop of `Channel::toggle_modes`
(`src/channel.rs`), for caller `nick` (server-operator status `oper`) and the
positional parameter list `params` (the source's `params[1..]`). -/
def toggleModesStep (nick : String) (oper : Bool) (params : List String)
    (acc : ToggleAcc) (ch : Char) : ToggleAcc :=
  match ch with
  | '+' => { acc with flag := true, changes := acc.changes.push '+' }
  | '-' => { acc with flag := false, changes := acc.changes.push '-' }
  | 'm' =>
    if acc.c.modes.moderated != acc.flag then
      { acc with c := { acc.c with modes := { acc.c.modes with moderated := acc.flag } },
                 changes := acc.changes.push 'm' }
    else acc
  | 'i' =>
    if acc.c.modes.invite_only != acc.flag then
      { acc with c := { acc.c with modes := { acc.c.modes with invite_only := acc.flag } },
                 changes := acc.changes.push 'i' }
    else acc
  | 'k' =>
    let acc2 :=
      if acc.flag then
        match params.get? acc.index with
        | some param =>
          if acc.c.modes.password.length > 0 then
            { acc with evs := acc.evs ++
                [Ev.numeric nick .ErrKeySet (acc.c.name ++ " :Channel key already set")] }
          else
            { acc with c := { acc.c with modes := { acc.c.modes with password := param } },
                       changes := acc.changes.push 'k',
                       changes_params := acc.changes_params ++ [param] }
        | none =>
          { acc with evs := acc.evs ++
              [Ev.numeric nick .ErrNeedMoreParams "MODE :Not enough parameters"] }
      else
        { acc with c := { acc.c with modes := { acc.c.modes with password := "" } },
                   changes := acc.changes.push 'k' }
    { acc2 with index := acc2.index + 1 }
  | 'l' =>
    let acc2 :=
      if acc.flag then
        match params.get? acc.index with
        | some param =>
          let prev := acc.c.modes.limit
          let newLimit := (param.toNat?).getD 0
          let accA :=
            { acc with c := { acc.c with modes := { acc.c.modes with limit := newLimit } } }
          if prev != newLimit then
            { accA with changes := accA.changes.push 'l',
                        changes_params := accA.changes_params ++ [toString newLimit] }
          else accA
        | none =>
          { acc with evs := acc.evs ++
              [Ev.numeric nick .ErrNeedMoreParams "MODE :Not enough parameters"] }
      else
        { acc with c := { acc.c with modes := { acc.c.modes with limit := 0 } },
                   changes := acc.changes.push 'l' }
    { acc2 with index := acc2.index + 1 }
  | 'b' =>
    let acc2 :=
      match params.get? acc.index with
      | some param =>
        if acc.flag then
          let r := setInsert param acc.c.bans
          if r.2 then
            { acc with c := { acc.c with bans := r.1 },
                       changes := acc.changes.push 'b',
                       changes_params := acc.changes_params ++ [param] }
          else { acc with c := { acc.c with bans := r.1 } }
        else
          let r := setRemove param acc.c.bans
          if r.2 then
            { acc with c := { acc.c with bans := r.1 },
                       changes := acc.changes.push 'b',
                       changes_params := acc.changes_params ++ [param] }
          else { acc with c := { acc.c with bans := r.1 } }
      | none => acc
    { acc2 with index := acc2.index + 1 }
  | 'e' =>
    let acc2 :=
      match params.get? acc.index with
      | some param =>
        if acc.flag then
          let r := setInsert param acc.c.ban_exceptions
          if r.2 then
            { acc with c := { acc.c with ban_exceptions := r.1 },
                       changes := acc.changes.push 'e',
                       changes_params := acc.changes_params ++ [param] }
          else { acc with c := { acc.c with ban_exceptions := r.1 } }
        else
          let r := setRemove param acc.c.ban_exceptions
          if r.2 then
            { acc with c := { acc.c with ban_exceptions := r.1 },
                       changes := acc.changes.push 'e',
                       changes_params := acc.changes_params ++ [param] }
          else { acc with c := { acc.c with ban_exceptions := r.1 } }
      | none => acc
    { acc2 with index := acc2.index + 1 }
  | 'q' | 'a' | 'o' | 'h' | 'v' =>
    let acc2 :=
      match params.get? acc.index with
      | some param =>
        if oper || acc.c.can_toggle_user_mode nick ch acc.flag then
          let r := acc.c.toggle_user_mode param ch acc.flag
          if r.2 then
            { acc with c := r.1,
                       changes := acc.changes.push ch,
                       changes_params := acc.changes_params ++ [param] }
          else { acc with c := r.1 }
        else acc
      | none => acc
    { acc2 with index := acc2.index + 1 }
  | _ =>
    { acc with evs := acc.evs ++
        [Ev.numeric nick .ErrUnknownMode (toString ch ++ " :Unknown mode")] }

/-- `Channel::toggle_modes` from `src/channel.rs`, for caller `nick` with
server-operator status `oper`.  Returns `none` for an empty parameter list
(the source panics there; every caller guards against it), otherwise the
updated channel, the assembled changes string and the emitted replies. -/
def Channel.toggle_modes (c : Channel) (nick : String) (oper : Bool)
    (params : List String) : Option (Channel × String × List Ev) :=
  match params with
  | [] => none
  | p0 :: rest =>
    let acc0 : ToggleAcc :=
      { c := c, flag := false, index := 0, changes := "", changes_params := [], evs := [] }
    let acc := p0.toList.foldl (toggleModesStep nick oper rest) acc0
    let changes :=
      if acc.changes.length > 0 && acc.changes_params.length > 0
      then acc.changes ++ " " else acc.changes
    let changes := changes ++ String.intercalate " " acc.changes_params
    some (acc.c, changes, acc.evs)

/-- UTF-8 encoding of one character as byte values, modelling
`String::into_bytes` elementwise. -/
def charUtf8 (c : Char) : List Nat :=
  let n := c.toNat
  if n < 0x80 then [n]
  else if n < 0x800 then
    [0xC0 ||| (n >>> 6), 0x80 ||| (n &&& 0x3F)]
  else if n < 0x10000 then
    [0xE0 ||| (n >>> 12), 0x80 ||| ((n >>> 6) &&& 0x3F), 0x80 ||| (n &&& 0x3F)]
  else
    [0xF0 ||| (n >>> 18), 0x80 ||| ((n >>> 12) &&& 0x3F),
     0x80 ||| ((n >>> 6) &&& 0x3F), 0x80 ||| (n &&& 0x3F)]

/-- UTF-8 byte values of a string, modelling `String::into_bytes`. -/
def strUtf8 (s : String) : List Nat :=
  (s.toList.map charUtf8).flatten

/-- The byte-indexed matching loop of `check_mask` (`src/mask.rs`): pattern
characters against value bytes, `?` consuming one byte, `\\` setting the
escape flag, any other character matched literally; any pattern character
reached with the byte index at or past the end fails; a fully consumed
pattern succeeds. -/
def checkMaskGo : List Char → List Nat → Nat → Bool → Bool
  | [], _, _, _ => true
  | c :: cs, v, i, esc =>
    if i ≥ v.length then false
    else
      if c = '?' then
        if esc then
          if c ≠ Char.ofNat (v.getD i 0) then false
          else checkMaskGo cs v (i + 1) false
        else checkMaskGo cs v (i + 1) esc
      else if c = '\\' then checkMaskGo cs v i true
      else if c ≠ Char.ofNat (v.getD i 0) then false
      else checkMaskGo cs v (i + 1) esc

/-- `check_mask` from `src/mask.rs`: glob-style wildcard match of `mask`
against the bytes of `value` (`?` matches one byte, `\\` escapes; `*` is noted
as unsupported in the source). -/
def check_mask (mask value : String) : Bool :=
  checkMaskGo mask.toList (strUtf8 value) 0 false

/-- ASCII lowercasing of a string, modelling `str::to_lowercase` on the
channel names this server handles (the source applies it to channel-name
keys). -/
def rustToLowercase (s : String) : String :=
  String.mk (s.toList.map Char.toLower)

/-- Splitting loop over the characters, with the accumulated current piece
held reversed. -/
def splitGo (sep : Char) : List Char → List Char → List String
  | [], cur => [String.mk cur.reverse]
  | c :: cs, cur =>
    if c = sep then String.mk cur.reverse :: splitGo sep cs []
    else splitGo sep cs (c :: cur)

/-- Modelling `str::split` with a one-character separator (as used for the
comma-separated target lists and the space-split service payload); an empty
string yields one empty piece, like the source. -/
def rustSplit (sep : Char) (s : String) : List String :=
  splitGo sep s.toList []

/-- `Client::is_nick_valid` from `src/client.rs`: byte length 1 to 24 and every
character ASCII alphanumeric, underscore or hyphen. -/
def is_nick_valid (nick : String) : Bool :=
  if nick.utf8ByteSize < 1 then false
  else if nick.utf8ByteSize > 24 then false
  else nick.toList.all (fun ch => ch.isAlphanum || ch == '_' || ch == '-')

/-- The pure, modelled part of a `Client` session (`src/client.rs`): identity
fields, flags, channel-name set, away text and the keep-alive flag.  I/O
handles, the parser and the idle timestamp are not represented. -/
structure ClientSt where
  nick : String
  user : String
  host : String
  operator : Bool
  registered : Bool
  channels : List String
  away_message : String
  received_pong : Bool
deriving Repr, DecidableEq

/-- `Client::get_prefix` (renamed): the `nick!user@host` source string. -/
def ClientSt.get_prefix_str (c : ClientSt) : String :=
  c.nick ++ "!" ++ c.user ++ "@" ++ c.host

/-- The modelled server-wide state (`Server` in `src/server.rs`): the server
name, the `clients` registry (nick to session), the `channels` registry
(lowercased name to channel), the active-operator nick set and the service
name set.  The pending-client list, operator credentials, MOTD, statistics
counters and nick history are not touched by the modelled handlers. -/
structure ServerSt where
  name : String
  clients : List (String × ClientSt)
  channels : List (String × Channel)
  operators : List String
  services : List String
deriving Repr, DecidableEq

/-- `Server::is_nick_mapped`. -/
def Server.is_nick_mapped (st : ServerSt) (name : String) : Bool :=
  (alGet name st.clients).isSome

/-- `Server::is_channel_mapped` (the key is lowercased). -/
def Server.is_channel_mapped (st : ServerSt) (name : String) : Bool :=
  (alGet (rustToLowercase name) st.channels).isSome

/-- `Server::create_channel`. -/
def Server.create_channel (st : ServerSt) (name : String) : ServerSt :=
  let key := rustToLowercase name
  { st with channels := alSet key (Channel.new key) st.channels }

/-- `Server::has_channel_participant`. -/
def Server.has_channel_participant (st : ServerSt) (name nick : String) : Bool :=
  match alGet (rustToLowercase name) st.channels with
  | some channel => channel.has_participant nick
  | none => false

/-- `Server::join_channel` from `src/server.rs`: the membership checks in
source order (all skipped for server operators), insertion with the `o` bit
for the first participant, the JOIN broadcast and the topic replies.  Returns
the new state, the success flag and the emitted events. -/
def Server.join_channel (st : ServerSt) (client : ClientSt)
    (channel_name password : String) : ServerSt × Bool × List Ev :=
  let key := rustToLowercase channel_name
  match alGet key st.channels with
  | none => (st, false, [])
  | some channel =>
    let oper := client.operator
    let nick := client.nick
    if channel.has_participant nick then (st, false, [])
    else if !oper && channel.modes.limit != 0 &&
        channel.participants.length ≥ channel.modes.limit then
      (st, false,
       [Ev.numeric nick .ErrChannelIsFull (channel_name ++ " :Cannot join channel (+l)")])
    else if !oper && channel.modes.password.length != 0 &&
        channel.modes.password ≠ password then
      (st, false,
       [Ev.numeric nick .ErrBadChannelKey (channel_name ++ " :Cannot join channel (+k)")])
    else
      let pfx := client.get_prefix_str
      if !oper && channel.modes.invite_only && !(channel.is_invited nick) &&
          !(channel.is_invite_exempt pfx) then
        (st, false,
         [Ev.numeric nick .ErrInviteOnlyChan (channel_name ++ " :Cannot join channel (+i)")])
      else if !oper && channel.is_banned pfx && !(channel.is_ban_exempt pfx) then
        (st, false,
         [Ev.numeric nick .ErrBannedFromChan (channel_name ++ " :Cannot join channel (+b)")])
      else
        let operator_bit := channel.participants.length == 0
        let newModes : ChannelUserModes :=
          { owner := false, admin := false, operator := operator_bit,
            half_operator := false, voiced := false }
        let channel2 := { channel with participants := alSet nick newModes channel.participants }
        let st2 := { st with channels := alUpdate key channel2 st.channels }
        let joinMsg := ":" ++ pfx ++ " JOIN " ++ channel_name
        let evs1 := channel2.participants.filterMap (fun p =>
          if (alGet p.1 st2.clients).isSome then some (Ev.raw p.1 joinMsg) else none)
        match alGet nick st2.clients with
        | some _ =>
          let topicEvs :=
            if channel.topic.text.length == 0 then
              [Ev.numeric nick .RplNoTopic (channel_name ++ " :No topic is set")]
            else
              [Ev.numeric nick .RplTopic (channel_name ++ " :" ++ channel.topic.text),
               Ev.numeric nick .RplTopicSet
                 (channel_name ++ " " ++ channel.topic.set_by ++ " " ++
                  toString channel.topic.set_at)]
          (st2, true, evs1 ++ topicEvs)
        | none => (st2, false, evs1)

/-- `Server::part_channel` from `src/server.rs`: remove the nick, broadcast
the PART line to the remaining members and to the sender, and drop the
channel from the registry when it became empty. -/
def Server.part_channel (st : ServerSt) (client : ClientSt)
    (channel_name part_message : String) : ServerSt × Bool × List Ev :=
  let key := rustToLowercase channel_name
  match alGet key st.channels with
  | none => (st, false, [])
  | some channel =>
    let nick := client.nick
    let r := channel.part nick
    if r.2 then
      let msg := ":" ++ client.get_prefix_str ++ " PART " ++ channel_name ++ " :" ++ part_message
      let evs := r.1.participants.filterMap (fun p =>
        if (alGet p.1 st.clients).isSome then some (Ev.raw p.1 msg) else none)
      let evs := evs ++ [Ev.raw nick msg]
      let st2 := { st with channels := alUpdate key r.1 st.channels }
      let st3 :=
        if r.1.participants.length == 0 then
          { st2 with channels := alErase key st2.channels }
        else st2
      (st3, true, evs)
    else (st, false, [])

/-- `Server::kick_channel` from `src/server.rs`: the half-operator gate (with
`482` on failure), the `oper or self-kick or has_access` ACL, the KICK
broadcast (before removal), removal of the kicked nick and deletion of the
channel when it became empty. -/
def Server.kick_channel (st : ServerSt) (client : ClientSt)
    (channel_name kicked kick_message : String) : ServerSt × Bool × List Ev :=
  let key := rustToLowercase channel_name
  match alGet key st.channels with
  | none => (st, false, [])
  | some channel =>
    let nick := client.nick
    let oper := client.operator
    if !oper && !(channel.is_half_operator nick) then
      (st, false,
       [Ev.numeric nick .ErrChanOpPrivsNeeded
          (channel_name ++ " :You\x27re not channel operator")])
    else if oper || nick == kicked || channel.has_access nick kicked then
      let msg := ":" ++ client.get_prefix_str ++ " KICK " ++ channel_name ++ " " ++
        kicked ++ " :" ++ kick_message
      let evs := channel.participants.filterMap (fun p =>
        if (alGet p.1 st.clients).isSome then some (Ev.raw p.1 msg) else none)
      let channel2 := channel.remove kicked
      let st2 := { st with channels := alUpdate key channel2 st.channels }
      let st3 :=
        if channel2.participants.length == 0 then
          { st2 with channels := alErase key st2.channels }
        else st2
      (st3, true, evs)
    else (st, false, [])

/-- `Server::forward_channel_message` from `src/server.rs`: the `+n` and `+m`
gates (skipped for server operators), the fan-out to every participant whose
prefix differs from the sender, and the `403`-coded "No such nick/channel"
reply when the channel is not mapped. -/
def Server.forward_channel_message (st : ServerSt) (is_notice : Bool)
    (client : ClientSt) (name text : String) : List Ev :=
  match alGet (rustToLowercase name) st.channels with
  | some channel =>
    let pfx := client.get_prefix_str
    let nick := client.nick
    if !client.operator && channel.modes.no_external_messages &&
        !(channel.has_participant nick) then
      [Ev.numeric nick .ErrCannotSendToChan
         (name ++ " :No external messages allowed (" ++ name ++ ")")]
    else if !client.operator && channel.modes.moderated && !(channel.is_voiced nick) then
      [Ev.numeric nick .ErrCannotSendToChan
         (name ++ " :You need voice (+v) (" ++ name ++ ")")]
    else
      let verb := if is_notice then "NOTICE" else "PRIVMSG"
      let msg := ":" ++ pfx ++ " " ++ verb ++ " " ++ name ++ " :" ++ text
      channel.participants.filterMap (fun p =>
        match alGet p.1 st.clients with
        | some target => if target.get_prefix_str ≠ pfx then some (Ev.raw p.1 msg) else none
        | none => none)
  | none =>
    [Ev.numeric client.nick .ErrNoSuchChannel (name ++ " :No such nick/channel")]

/-- `Server::forward_message` from `src/server.rs`: service dispatch, delivery
to a mapped nick (with the away reply for PRIVMSG), or the `401` reply. -/
def Server.forward_message (st : ServerSt) (is_notice : Bool) (sender : ClientSt)
    (name message : String) : List Ev :=
  if setHas name st.services then
    [Ev.toService name (rustSplit ' ' message)]
  else
    match alGet name st.clients with
    | some client =>
      let verb := if is_notice then "NOTICE" else "PRIVMSG"
      let msg := ":" ++ sender.get_prefix_str ++ " " ++ verb ++ " " ++ name ++ " :" ++ message
      let evs := [Ev.raw name msg]
      if !is_notice && client.away_message.length > 0 then
        evs ++ [Ev.numeric sender.nick .RplAway (name ++ ": " ++ client.away_message)]
      else evs
    | none =>
      [Ev.numeric sender.nick .ErrNoSuchNick (name ++ " :No such nick/channel")]

/-- `Server::handle_channel_mode` from `src/server.rs`: the query branch for an
empty parameter list, and otherwise the `oper or member` gate in front of
`Channel::toggle_modes` with the change broadcast (the registry key is NOT
lowercased here, exactly as in the source). -/
def Server.handle_channel_mode (st : ServerSt) (client : ClientSt)
    (channel_name : String) (params : List String) : ServerSt × List Ev :=
  match alGet channel_name st.channels with
  | none =>
    (st, [Ev.numeric client.nick .ErrNoSuchChannel (channel_name ++ " :No such channel")])
  | some channel =>
    let nick := client.nick
    let oper := client.operator
    let has_participant := channel.has_participant nick
    if params.length < 1 then
      if !oper && channel.modes.secret && !has_participant then
        (st, [Ev.numeric nick .ErrNoSuchChannel (channel_name ++ " :No such channel")])
      else
        (st, [Ev.numeric nick .RplChannelModeIs
               (channel_name ++ " " ++ channel.get_modes_description (oper || has_participant))])
    else
      if oper || has_participant then
        match channel.toggle_modes nick oper params with
        | none => (st, [])
        | some r =>
          let st2 := { st with channels := alUpdate channel_name r.1 st.channels }
          if r.2.1.length > 0 then
            let msg := ":" ++ client.get_prefix_str ++ " MODE " ++ channel_name ++ " " ++ r.2.1
            let bevs := r.1.participants.filterMap (fun p =>
              if (alGet p.1 st2.clients).isSome then some (Ev.raw p.1 msg) else none)
            (st2, r.2.2 ++ bevs)
          else (st2, r.2.2)
      else
        (st, [Ev.numeric nick .ErrUserNotInChannel
               (nick ++ " " ++ channel_name ++ " :They aren\x27t on that channel")])

/-- `Server::send_names` from `src/server.rs`: nothing at all for an unmapped
channel; otherwise the NAMES line (for operators and members; the inner
lookup is not lowercased, as in the source) followed by the end numeric. -/
def Server.send_names (st : ServerSt) (client : ClientSt) (channel_name : String) :
    List Ev :=
  if !(Server.is_channel_mapped st channel_name) then []
  else
    let evs :=
      match alGet channel_name st.channels with
      | some channel =>
        if client.operator || channel.has_participant client.nick then
          let names := channel.participants.map (fun p => p.2.get_prefix_str ++ p.1)
          [Ev.numeric client.nick .RplNamReply
            ("= " ++ channel_name ++ " :" ++ String.intercalate " " names)]
        else []
      | none => []
    evs ++ [Ev.numeric client.nick .RplEndOfNames (channel_name ++ " :End of /NAMES list.")]

/-- Write an update of a session channel set back into the clients registry;
in the source the per-connection session object and the registry entry are
one shared reference-counted object, so a mutation through one is visible
through the other. -/
def ServerSt.updateClientChannels (st : ServerSt) (nick : String)
    (f : List String → List String) : ServerSt :=
  match alGet nick st.clients with
  | some cl =>
    { st with clients := alUpdate nick { cl with channels := f cl.channels } st.clients }
  | none => st

/-- Outcome of `Client::on_join`: either the handler panics (it indexes
`message.params[0]` unconditionally) or it completes with a new server state
and emitted events. -/
inductive JoinOutcome where
  | panicked
  | ok (st : ServerSt) (evs : List Ev)
deriving Repr, DecidableEq

/-- `Client::on_join` from `src/client.rs`, for the session registered under
`selfNick`: `params[0]` is indexed unconditionally (an empty parameter list
is the `panicked` outcome); target `"0"` parts every joined channel with
reason "Leaving" and clears the session channel set; otherwise each
comma-separated target is created on demand, joined with the positionally
matching password, recorded in the session channel set and NAMES is sent. -/
def Client.on_join (st : ServerSt) (selfNick : String) (params : List String) :
    JoinOutcome :=
  match alGet selfNick st.clients with
  | none => .ok st []
  | some self =>
    match params.get? 0 with
    | none => .panicked
    | some p0 =>
      if p0 == "0" then
        let r := self.channels.foldl
          (fun (acc : ServerSt × List Ev) channel =>
            let r := Server.part_channel acc.1 self channel "Leaving"
            (r.1, acc.2 ++ r.2.2))
          (st, [])
        .ok (ServerSt.updateClientChannels r.1 selfNick (fun _ => [])) r.2
      else
        let targets := rustSplit ',' p0
        let passwords :=
          match params.get? 1 with
          | some p1 => rustSplit ',' p1
          | none => []
        let r := targets.enum.foldl
          (fun (acc : ServerSt × List Ev) it =>
            let index := it.1
            let target := it.2
            if target.length == 0 then acc
            else
              let st1 :=
                if !(Server.is_channel_mapped acc.1 target) then
                  Server.create_channel acc.1 target
                else acc.1
              let password := (passwords.get? index).getD ""
              let r := Server.join_channel st1 self target password
              if r.2.1 then
                let st2 := ServerSt.updateClientChannels r.1 selfNick
                  (fun chs => (setInsert target chs).1)
                (st2, acc.2 ++ r.2.2 ++ Server.send_names st2 self target)
              else (r.1, acc.2 ++ r.2.2))
          (st, [])
        .ok r.1 r.2

/-- `Client::on_kick` from `src/client.rs`, for the session registered under
`selfNick`: parameter checks, the channel/user fan-out rule, and after each
successful kick the source removes the string `nick` (the caller nick, not a
channel name) from its own channel set. -/
def Client.on_kick (st : ServerSt) (selfNick : String) (params : List String) :
    ServerSt × List Ev :=
  match alGet selfNick st.clients with
  | none => (st, [])
  | some self =>
    if params.length < 2 then
      (st, [Ev.numeric self.nick .ErrNeedMoreParams "KICK :Not enough parameters"])
    else
      let nick := self.nick
      let targets := rustSplit ',' (params.getD 0 "")
      let users := rustSplit ',' (params.getD 1 "")
      let message := (params.get? 2).getD "Kicked"
      if targets.length == 1 && users.length > 0 then
        let target := targets.getD 0 ""
        if target.length == 0 then (st, [])
        else if !(Server.is_channel_mapped st target) then
          (st, [Ev.numeric nick .ErrNoSuchChannel (target ++ " :No such channel")])
        else if !(Server.has_channel_participant st target nick) then
          (st, [Ev.numeric nick .ErrNotOnChannel (target ++ " :You\x27re not on that channel")])
        else
          users.foldl
            (fun (acc : ServerSt × List Ev) user =>
              if !(Server.has_channel_participant acc.1 target user) then
                (acc.1, acc.2 ++ [Ev.numeric nick .ErrUserNotInChannel
                  (user ++ " " ++ target ++ " :They aren\x27t on that channel")])
              else
                let r := Server.kick_channel acc.1 self target user message
                if r.2.1 then
                  (ServerSt.updateClientChannels r.1 selfNick
                     (fun chs => (setRemove nick chs).1),
                   acc.2 ++ r.2.2)
                else (r.1, acc.2 ++ r.2.2))
            (st, [])
      else if targets.length == users.length then
        targets.enum.foldl
          (fun (acc : ServerSt × List Ev) it =>
            let target := it.2
            if !(Server.is_channel_mapped acc.1 target) then
              (acc.1, acc.2 ++ [Ev.numeric nick .ErrNoSuchChannel
                (target ++ " :No such channel")])
            else if !(Server.has_channel_participant acc.1 target nick) then
              (acc.1, acc.2 ++ [Ev.numeric nick .ErrNotOnChannel
                (target ++ " :You\x27re not on that channel")])
            else
              let user := (users.get? it.1).getD ""
              if !(Server.has_channel_participant acc.1 target user) then
                (acc.1, acc.2 ++ [Ev.numeric nick .ErrUserNotInChannel
                  (user ++ " " ++ target ++ " :They aren\x27t on that channel")])
              else
                let r := Server.kick_channel acc.1 self target user message
                if r.2.1 then
                  (ServerSt.updateClientChannels r.1 selfNick
                     (fun chs => (setRemove nick chs).1),
                   acc.2 ++ r.2.2)
                else (r.1, acc.2 ++ r.2.2))
          (st, [])
      else (st, [])

/-- `Client::on_privmsg` from `src/client.rs` (shared by PRIVMSG and NOTICE):
the recipient/text parameter checks and the per-target dispatch on the first
character. -/
def Client.on_privmsg (st : ServerSt) (client : ClientSt) (is_notice : Bool)
    (params : List String) : List Ev :=
  if params.length < 1 then
    [Ev.numeric client.nick .ErrNoRecipient ":No recipient given (PRIVMSG)"]
  else if params.length < 2 then
    [Ev.numeric client.nick .ErrNoTextToSend ":No text to send"]
  else
    let targets := rustSplit ',' (params.getD 0 "")
    let text := params.getD 1 ""
    targets.foldl
      (fun evs target =>
        if target.length == 0 then evs
        else
          let c0 := (target.toList.getD 0 ' ')
          if c0 == '#' then
            evs ++ Server.forward_channel_message st is_notice client target text
          else if c0 == '!' || c0 == '&' || c0 == '+' then
            evs ++ [Ev.numeric client.nick .ErrNoSuchChannel (target ++ " :No such channel")]
          else if Server.is_nick_mapped st target then
            evs ++ Server.forward_message st is_notice client target text
          else
            evs ++ [Ev.numeric client.nick .ErrNoSuchNick
              (target ++ " :No such nick/channel")])
      []

/-- `Client::on_away` from `src/client.rs`: with a parameter the away text is
set and `RplNowAway` sent; without parameters only `RplUnAway` is sent (the
stored away text is not touched). -/
def Client.on_away (client : ClientSt) (params : List String) : ClientSt × List Ev :=
  match params.get? 0 with
  | some p =>
    ({ client with away_message := p },
     [Ev.numeric client.nick .RplNowAway ":You have been marked as being away"])
  | none =>
    (client,
     [Ev.numeric client.nick .RplUnAway ":You are no longer marked as being away"])

/-- `Client::on_nick` from `src/client.rs`, restricted to the nickname
decision: the in-use check against the `clients` key set, the validity check,
the numeric sent on rejection, and the resulting session nick.  The registry
bookkeeping of the accept branch (pending-list promotion in `map_nick`,
re-keying in `remap_nick`, the nick-history append and registration
completion) is not represented here. -/
def Client.on_nick (mapped : List String) (client : ClientSt) (params : List String) :
    ClientSt × List Ev :=
  match params.get? 0 with
  | some nick =>
    if setHas nick mapped then
      (client,
       [Ev.numeric client.nick .ErrNicknameInUse (nick ++ " :Nickname is already in use")])
    else if !(is_nick_valid nick) then
      (client,
       [Ev.numeric client.nick .ErrErroneousNickname (nick ++ " :Erroneous nickname")])
    else
      ({ client with nick := nick }, [])
  | none =>
    (client, [Ev.numeric client.nick .ErrNoNicknameGiven ":No nickname given"])

/-- One iteration of the 30-second loop in `Client::task_ping`
(`src/client.rs`): the triple is (session terminated: writer taken and shut,
new last-pong flag, lines sent).  A false flag terminates; otherwise the flag
is cleared and PING sent only when the session is registered. -/
def Client.task_ping_iter (received_pong registered : Bool) (server_name : String) :
    Bool × Bool × List String :=
  if !received_pong then (true, received_pong, [])
  else if registered then (false, false, ["PING :" ++ server_name])
  else (false, received_pong, [])

/-- The bidirectional membership invariant of the specification: every channel
name in a session channel set names a registered channel holding that session
nick, and every participant nick of every registered channel is a mapped
session whose channel set holds the channel name. -/
def ServerSt.membershipBidirectional (st : ServerSt) : Bool :=
  st.clients.all (fun p =>
    p.2.channels.all (fun cname =>
      match alGet cname st.channels with
      | some ch => ch.has_participant p.2.nick
      | none => false)) &&
  st.channels.all (fun p =>
    p.2.participants.all (fun q =>
      match alGet q.1 st.clients with
      | some cl => setHas p.1 cl.channels
      | none => false))

/-- The create-on-demand step that `Client::on_join` performs before calling
`Server::join_channel` for one target. -/
def Server.join_prep (st : ServerSt) (target : String) : ServerSt :=
  if !(Server.is_channel_mapped st target) then Server.create_channel st target else st

/-- Whether an event is the numeric 474 ban refusal. -/
def isBanReplyEv : Ev → Bool
  | Ev.numeric _ r _ => r == .ErrBannedFromChan
  | _ => false

/-- The tier of a role-bit record in the owner-admin-operator-halfop-voice
hierarchy (voice and no-bits both sit below half-op for the kick ACL). -/
def roleRank (m : ChannelUserModes) : Nat :=
  if m.owner then 4
  else if m.admin then 3
  else if m.operator then 2
  else if m.half_operator then 1
  else 0

/-- A role-bit record with every bit clear. -/
def fixNoBits : ChannelUserModes :=
  { owner := false, admin := false, operator := false, half_operator := false, voiced := false }

/-- A plain channel-operator role record. -/
def fixOpBits : ChannelUserModes := { fixNoBits with operator := true }

/-- A plain half-operator role record. -/
def fixHalfOpBits : ChannelUserModes := { fixNoBits with half_operator := true }

/-- A registered non-operator session fixture named `n` joined to `chs`. -/
def fixClient (n : String) (chs : List String) : ClientSt :=
  { nick := n, user := n, host := "h", operator := false, registered := true,
    channels := chs, away_message := "", received_pong := true }

/-- Channel `#a` with operator alice and role-less bob. -/
def fixChanAliceOpBob : Channel :=
  { Channel.new "#a" with participants := [("alice", fixOpBits), ("bob", fixNoBits)] }

/-- Server state: alice (channel operator) and bob (no role bits) in `#a`. -/
def fixStAliceOpBob : ServerSt :=
  { name := "srv",
    clients := [("alice", fixClient "alice" ["#a"]), ("bob", fixClient "bob" ["#a"])],
    channels := [("#a", fixChanAliceOpBob)], operators := [], services := [] }

/-- Channel `#a` where alice and bob are both half-operators. -/
def fixChanTwoHalfOps : Channel :=
  { Channel.new "#a" with participants := [("alice", fixHalfOpBits), ("bob", fixHalfOpBits)] }

/-- Server state: alice and bob, both half-operators of `#a`. -/
def fixStTwoHalfOps : ServerSt :=
  { name := "srv",
    clients := [("alice", fixClient "alice" ["#a"]), ("bob", fixClient "bob" ["#a"])],
    channels := [("#a", fixChanTwoHalfOps)], operators := [], services := [] }

/-- Channel `#a` whose ban list holds the wildcard mask `bob!bob@?`. -/
def fixChanWildcardBan : Channel :=
  { Channel.new "#a" with participants := [("alice", fixOpBits)], bans := ["bob!bob@?"] }

/-- Server state for the wildcard-ban scenario: alice in `#a`, bob outside. -/
def fixStWildcardBan : ServerSt :=
  { name := "srv",
    clients := [("alice", fixClient "alice" ["#a"]), ("bob", fixClient "bob" [])],
    channels := [("#a", fixChanWildcardBan)], operators := [], services := [] }

/-- Server state with one mapped client and no channels. -/
def fixStNoChannels : ServerSt :=
  { name := "srv", clients := [("alice", fixClient "alice" [])], channels := [],
    operators := [], services := [] }


/-- Channel `#a` whose ban list holds exactly the prefix string of bob. -/
def fixChanExactBan : Channel :=
  { Channel.new "#a" with participants := [("alice", fixOpBits)], bans := ["bob!bob@h"] }

/-- Server state for the exact-ban scenario: alice in `#a`, bob outside. -/
def fixStExactBan : ServerSt :=
  { name := "srv",
    clients := [("alice", fixClient "alice" ["#a"]), ("bob", fixClient "bob" [])],
    channels := [("#a", fixChanExactBan)], operators := [], services := [] }

/-- The channel as `Server::join_channel` leaves it on success: the joining
nick inserted with the `o` bit exactly when the channel was empty. -/
def joinInsert (ch : Channel) (nick : String) : Channel :=
  let m : ChannelUserModes :=
    { owner := false, admin := false, operator := ch.participants.length == 0,
      half_operator := false, voiced := false }
  { ch with participants := alSet nick m ch.participants }

@[simp] theorem alGet_nil {α : Type} (k : String) : alGet (α := α) k [] = none := rfl

@[simp] theorem alGet_cons {α : Type} (k k2 : String) (v : α) (rest : List (String × α)) :
    alGet k ((k2, v) :: rest) = if k2 = k then some v else alGet k rest := rfl

@[simp] theorem alErase_nil {α : Type} (k : String) : alErase (α := α) k [] = [] := rfl

@[simp] theorem alErase_cons {α : Type} (k k2 : String) (v : α) (rest : List (String × α)) :
    alErase k ((k2, v) :: rest) =
      if k2 = k then alErase k rest else (k2, v) :: alErase k rest := rfl

@[simp] theorem alGet_alSet_self {α : Type} (k : String) (v : α) (l : List (String × α)) :
    alGet k (alSet k v l) = some v := by
  simp [alSet]

@[simp] theorem alGet_alErase_self {α : Type} (k : String) (l : List (String × α)) :
    alGet k (alErase k l) = none := by
  induction l with
  | nil => simp
  | cons p rest ih =>
    obtain ⟨k2, v2⟩ := p
    by_cases h : k2 = k <;> simp [h, ih]

theorem alGet_alErase_ne {α : Type} (k k2 : String) (l : List (String × α))
    (h : k ≠ k2) : alGet k2 (alErase k l) = alGet k2 l := by
  induction l with
  | nil => simp
  | cons p rest ih =>
    obtain ⟨k3, v3⟩ := p
    by_cases h3 : k3 = k
    · subst h3
      simp [h, ih]
    · simp [h3, ih]

theorem alGet_alSet_ne {α : Type} (k k2 : String) (v : α) (l : List (String × α))
    (h : k ≠ k2) : alGet k2 (alSet k v l) = alGet k2 l := by
  simp [alSet, h, alGet_alErase_ne k k2 l h]

theorem alErase_idem {α : Type} (k : String) (l : List (String × α)) :
    alErase k (alErase k l) = alErase k l := by
  induction l with
  | nil => simp
  | cons p rest ih =>
    obtain ⟨k2, v2⟩ := p
    by_cases h : k2 = k <;> simp [h, ih]

theorem alErase_alSet_self {α : Type} (k : String) (v : α) (l : List (String × α)) :
    alErase k (alSet k v l) = alErase k l := by
  simp [alSet, alErase_idem]

/-- Erasing a key that is absent leaves the association list unchanged. -/
theorem alErase_of_not_mem {α : Type} (k : String) (l : List (String × α))
    (h : alGet k l = none) : alErase k l = l := by
  induction l with
  | nil => simp
  | cons p rest ih =>
    obtain ⟨k2, v2⟩ := p
    by_cases h2 : k2 = k
    · simp [h2] at h
    · simp [h2] at h ⊢
      exact ih h


theorem alGet_alUpdate_self {α : Type} (k : String) (v : α) (l : List (String × α)) :
    alGet k (alUpdate k v l) = if (alGet k l).isSome then some v else none := by
  induction l with
  | nil => simp [alUpdate]
  | cons p rest ih =>
    obtain ⟨k2, v2⟩ := p
    by_cases h : k2 = k <;> simp [alUpdate, h, ih]

/-- The inclusive half-operator test of a participant entry is exactly rank at
least one. -/
theorem is_half_operator_entry_iff_rank (m : ChannelUserModes) :
    m.is_half_operator false = decide (1 ≤ roleRank m) := by
  obtain ⟨o, a, op, h, v⟩ := m
  cases o <;> cases a <;> cases op <;> cases h <;> rfl

/-- The tier-by-tier body of `Channel::has_access` grants access exactly when
the caller holds rank at least one and the target holds no higher rank. -/
theorem has_access_entry_iff_rank (m mo : ChannelUserModes) :
    (if m.is_owner then true
     else if m.is_admin false then !mo.is_owner
     else if m.is_operator false then !(mo.is_admin false)
     else if m.is_half_operator false then !(mo.is_operator false)
     else false) =
    (decide (1 ≤ roleRank m) && decide (roleRank mo ≤ roleRank m)) := by
  obtain ⟨o, a, op, h, v⟩ := m
  obtain ⟨o2, a2, op2, h2, v2⟩ := mo
  cases o <;> cases a <;> cases op <;> cases h <;>
    cases o2 <;> cases a2 <;> cases op2 <;> cases h2 <;> rfl

/-- `Channel::has_access` in terms of the role ranks of the two entries. -/
theorem has_access_iff_rank (c : Channel) (nick other : String) :
    c.has_access nick other =
      (match alGet nick c.participants, alGet other c.participants with
       | some m, some mo => decide (1 ≤ roleRank m) && decide (roleRank mo ≤ roleRank m)
       | _, _ => false) := by
  unfold Channel.has_access
  cases alGet nick c.participants with
  | none => rfl
  | some m =>
    cases alGet other c.participants with
    | none => rfl
    | some mo => exact has_access_entry_iff_rank m mo

/-- The non-operator kick condition of `Server::kick_channel` in rank terms. -/
theorem kickCond_iff (ch : Channel) (nick kicked : String) :
    (ch.is_half_operator nick && (nick == kicked || ch.has_access nick kicked)) = true ↔
      (∃ m, alGet nick ch.participants = some m ∧ 1 ≤ roleRank m ∧
        (nick = kicked ∨
         ∃ mo, alGet kicked ch.participants = some mo ∧ roleRank mo ≤ roleRank m)) := by
  rw [has_access_iff_rank]
  unfold Channel.is_half_operator
  cases hm : alGet nick ch.participants with
  | none => simp
  | some m =>
    dsimp only
    rw [is_half_operator_entry_iff_rank]
    cases hmo : alGet kicked ch.participants with
    | none =>
      simp only [Option.some.injEq]
      constructor
      · intro h
        simp at h
        exact ⟨m, rfl, h.1, Or.inl h.2⟩
      · rintro ⟨m2, hm2, hrank, hdisj⟩
        subst hm2
        rcases hdisj with heq | ⟨mo, hmo2, _⟩
        · simp [heq, hrank]
        · cases hmo2
    | some mo =>
      simp only [Option.some.injEq]
      constructor
      · intro h
        simp at h
        rcases h with ⟨hrank, hdisj⟩
        rcases hdisj with heq | ⟨_, hle⟩
        · exact ⟨m, rfl, hrank, Or.inl heq⟩
        · exact ⟨m, rfl, hrank, Or.inr ⟨mo, rfl, hle⟩⟩
      · rintro ⟨m2, hm2, hrank, hdisj⟩
        subst hm2
        rcases hdisj with heq | ⟨mo2, hmo2, hle⟩
        · simp [heq, hrank]
        · subst hmo2
          simp [hrank, hle]

/-- A list built by filtering raw-line events contains no 474 numeric. -/
theorem any_isBanReplyEv_of_raws {α : Type} (l : List α) (f : α → Option Ev)
    (hf : ∀ p e, f p = some e → ∃ t s, e = Ev.raw t s) :
    (l.filterMap f).any isBanReplyEv = false := by
  induction l with
  | nil => rfl
  | cons p rest ih =>
    rw [List.filterMap_cons]
    cases hfe : f p with
    | none => exact ih
    | some e =>
      obtain ⟨t, s, rfl⟩ := hf p e hfe
      simp [isBanReplyEv, ih]

/-- A successful `Server::join_channel` implies the nick was no participant,
and the resulting state carries exactly the `joinInsert` update of the looked
up channel. -/
theorem join_channel_success (st : ServerSt) (client : ClientSt)
    (cname password : String) (ch : Channel)
    (hch : alGet (rustToLowercase cname) st.channels = some ch)
    (hok : (Server.join_channel st client cname password).2.1 = true) :
    ch.has_participant client.nick = false ∧
    (Server.join_channel st client cname password).1 =
      { st with channels :=
          alUpdate (rustToLowercase cname) (joinInsert ch client.nick) st.channels } := by
  unfold Server.join_channel at hok ⊢
  simp only [hch] at hok ⊢
  split at hok
  case isTrue h => simp at hok
  case isFalse h1 =>
    split at hok
    case isTrue h => simp at hok
    case isFalse h2 =>
      split at hok
      case isTrue h => simp at hok
      case isFalse h3 =>
        split at hok
        case isTrue h => simp at hok
        case isFalse h4 =>
          split at hok
          case isTrue h => simp at hok
          case isFalse h5 =>
            refine ⟨by simpa using h1, ?_⟩
            rw [if_neg h1, if_neg h2, if_neg h3, if_neg h4, if_neg h5]
            split <;> rfl

/-- `Server::part_channel` right after a `joinInsert` restores the channel
record and removes the channel when it had no other participant. -/
theorem part_after_joinInsert (stb : ServerSt) (client : ClientSt) (cname pmsg : String)
    (ch : Channel)
    (hch : alGet (rustToLowercase cname) stb.channels = some ch)
    (hpart : ch.has_participant client.nick = false) :
    (Server.part_channel
      { stb with channels :=
          alUpdate (rustToLowercase cname) (joinInsert ch client.nick) stb.channels }
      client cname pmsg).2.1 = true ∧
    alGet (rustToLowercase cname)
      (Server.part_channel
        { stb with channels :=
            alUpdate (rustToLowercase cname) (joinInsert ch client.nick) stb.channels }
        client cname pmsg).1.channels =
      (if ch.participants.length = 0 then none else some ch) := by
  have hpnone : alGet client.nick ch.participants = none := by
    unfold Channel.has_participant at hpart
    cases hx : alGet client.nick ch.participants with
    | none => rfl
    | some m => rw [hx] at hpart; simp at hpart
  have hlook : alGet (rustToLowercase cname)
      (alUpdate (rustToLowercase cname) (joinInsert ch client.nick) stb.channels) =
      some (joinInsert ch client.nick) := by
    rw [alGet_alUpdate_self, hch]
    rfl
  have hparted : (joinInsert ch client.nick).part client.nick = (ch, true) := by
    unfold Channel.part Channel.has_participant joinInsert
    simp only [alGet_alSet_self, Option.isSome_some, if_true]
    rw [alErase_alSet_self, alErase_of_not_mem _ _ hpnone]
  unfold Server.part_channel
  simp only [hlook, hparted]
  by_cases hlen : ch.participants.length = 0
  · simp [hlen]
  · simp [hlen, alGet_alUpdate_self, hlook]

/-- C1: the spec claims the membership relation stays bidirectional across every
operation, in particular KICK.  The code is a slip against that intent: after
alice (channel operator of `#a`) kicks bob, bob is gone from the participants
of `#a` while the string `#a` is still in the channel set of the session bob
(`Client::on_kick` removes the caller nick string from the caller own channel
set and never touches the kicked session), so the invariant evaluates to
false on the post state. -/
theorem claim1_kick_breaks_bidirectional_membership :
    fixStAliceOpBob.membershipBidirectional = true ∧
    (Client.on_kick fixStAliceOpBob "alice" ["#a", "bob"]).2 =
      [Ev.raw "alice" ":alice!alice@h KICK #a bob :Kicked",
       Ev.raw "bob" ":alice!alice@h KICK #a bob :Kicked"] ∧
    Server.has_channel_participant
      (Client.on_kick fixStAliceOpBob "alice" ["#a", "bob"]).1 "#a" "bob" = false ∧
    ((alGet "bob" (Client.on_kick fixStAliceOpBob "alice" ["#a", "bob"]).1.clients).map
      ClientSt.channels) = some ["#a"] ∧
    (Client.on_kick fixStAliceOpBob "alice" ["#a", "bob"]).1.membershipBidirectional
      = false := by
  refine ⟨by decide, by decide, by decide, by decide, by decide⟩

/-- C2 counterexample: bob is a member of `#a` with every role bit clear and is
no server operator, yet his `MODE #a +m` is applied: the channel becomes
moderated and the change is broadcast.  The claim that only
channel-operator-or-above (or server operators) can toggle channel mode `m`
is false on the code. -/
theorem claim2_counterexample_member_sets_moderated :
    alGet "bob" fixChanAliceOpBob.participants = some fixNoBits ∧
    (fixClient "bob" ["#a"]).operator = false ∧
    fixChanAliceOpBob.modes.moderated = false ∧
    (match alGet "#a" (Server.handle_channel_mode fixStAliceOpBob
        (fixClient "bob" ["#a"]) "#a" ["+m"]).1.channels with
     | some ch => ch.modes.moderated
     | none => false) = true ∧
    (Server.handle_channel_mode fixStAliceOpBob (fixClient "bob" ["#a"]) "#a" ["+m"]).2 =
      [Ev.raw "alice" ":bob!bob@h MODE #a +m", Ev.raw "bob" ":bob!bob@h MODE #a +m"] := by
  refine ⟨by decide, by decide, by decide, by decide, by decide⟩

/-- C3 counterexample: alice and bob hold exactly the same rank (both
half-operators) in `#a`, alice is no server operator and is not kicking
herself, yet `Server::kick_channel` succeeds: `has_access` lets a
half-operator kick anyone who is not operator-or-above, so equal rank can
kick.  The claim that the caller must strictly outrank the target is false on
the code. -/
theorem claim3_counterexample_equal_rank_kick_succeeds :
    alGet "alice" fixChanTwoHalfOps.participants = some fixHalfOpBits ∧
    alGet "bob" fixChanTwoHalfOps.participants = some fixHalfOpBits ∧
    (fixClient "alice" ["#a"]).operator = false ∧
    ("alice" : String) ≠ "bob" ∧
    (Server.kick_channel fixStTwoHalfOps (fixClient "alice" ["#a"])
      "#a" "bob" "Kicked").2.1 = true := by
  refine ⟨by decide, by decide, by decide, by decide, by decide⟩

/-- C4 counterexample: the ban mask `bob!bob@?` of `#a` matches the prefix
`bob!bob@h` of the non-operator requester bob under the wildcard rules of
`check_mask`, no exception is set, and the mask is not byte-for-byte equal to
the prefix — yet bob joins successfully and no 474 refusal is emitted:
`Channel::is_banned` tests exact set membership of the prefix, not wildcard
matching.  The claim that a wildcard-matching ban mask blocks the join is
false on the code. -/
theorem claim4_counterexample_wildcard_ban_does_not_block :
    check_mask "bob!bob@?" ((fixClient "bob" []).get_prefix_str) = true ∧
    ("bob!bob@?" : String) ≠ (fixClient "bob" []).get_prefix_str ∧
    fixChanWildcardBan.bans = ["bob!bob@?"] ∧
    fixChanWildcardBan.ban_exceptions = [] ∧
    (fixClient "bob" []).operator = false ∧
    (Server.join_channel fixStWildcardBan (fixClient "bob" []) "#a" "").2.1 = true ∧
    ((Server.join_channel fixStWildcardBan (fixClient "bob" []) "#a" "").2.2.any
      isBanReplyEv) = false ∧
    Server.has_channel_participant
      (Server.join_channel fixStWildcardBan (fixClient "bob" []) "#a" "").1 "#a" "bob"
      = true := by
  refine ⟨by decide, by decide, by decide, by decide, by decide, by decide, by decide,
    by decide⟩

/-- C5 counterexample: a PRIVMSG to the unmapped channel `#x` produces one
numeric reply carrying code 403 (`ErrNoSuchChannel`), not 401 — only the body
text is the 401-style "No such nick/channel".  The claim that the numeric is
401 is false on the code. -/
theorem claim5_counterexample_numeric_is_403_not_401 :
    Client.on_privmsg fixStNoChannels (fixClient "alice" []) false ["#x", "hi"] =
      [Ev.numeric "alice" .ErrNoSuchChannel "#x :No such nick/channel"] ∧
    NumericReply.code .ErrNoSuchChannel = 403 ∧
    NumericReply.code .ErrNoSuchChannel ≠ 401 := by
  refine ⟨by decide, by decide, by decide⟩

/-- C6 counterexample: a ping-task iteration of a live but unregistered
session with the last-pong flag set emits no `PING` line and leaves the flag
set, while the claim predicts (flag cleared, `PING :srv` emitted) regardless
of registration state. -/
theorem claim6_counterexample_unregistered_not_pinged :
    Client.task_ping_iter true false "srv" = (false, true, []) ∧
    Client.task_ping_iter true false "srv" ≠ (false, false, ["PING :srv"]) := by
  refine ⟨by decide, by decide⟩

/-- C7: the claim (and the reply text the code itself sends) say AWAY without
parameters clears the away text; the code only sends numeric 305 and leaves
the stored away text untouched, so a session that was away stays marked away.
The parameterless branch diverges from the documented behaviour while the
with-parameter branch (set text, numeric 306) behaves as claimed. -/
theorem claim7_away_without_params_leaves_text :
    (Client.on_away { fixClient "alice" [] with away_message := "brb" } []).1.away_message
      = "brb" ∧
    (Client.on_away { fixClient "alice" [] with away_message := "brb" } []).2 =
      [Ev.numeric "alice" .RplUnAway ":You are no longer marked as being away"] ∧
    NumericReply.code .RplUnAway = 305 ∧
    (Client.on_away (fixClient "alice" []) ["gone"]).1.away_message = "gone" ∧
    (Client.on_away (fixClient "alice" []) ["gone"]).2 =
      [Ev.numeric "alice" .RplNowAway ":You have been marked as being away"] ∧
    NumericReply.code .RplNowAway = 306 := by
  refine ⟨by decide, by decide, by decide, by decide, by decide, by decide⟩

/-- C9 counterexample: the nickname `bob` satisfies the validity rule (1 to 24
characters from `[A-Za-z0-9_-]`) yet is not accepted when it is already
mapped: the session keeps its nick and numeric 433 (not 432) is sent.
Acceptance is therefore not equivalent to validity alone. -/
theorem claim9_counterexample_valid_nick_in_use_rejected :
    is_nick_valid "bob" = true ∧
    (Client.on_nick ["bob"] (fixClient "ann" []) ["bob"]).1 = fixClient "ann" [] ∧
    (Client.on_nick ["bob"] (fixClient "ann" []) ["bob"]).2 =
      [Ev.numeric "ann" .ErrNicknameInUse "bob :Nickname is already in use"] ∧
    NumericReply.code .ErrNicknameInUse = 433 := by
  refine ⟨by decide, by decide, by decide, by decide⟩

/-- C10: `Client::on_join` indexes `message.params[0]` before any other check,
so for every server state and every session mapped in the clients registry a
JOIN with an empty parameter list is the out-of-bounds panic outcome — no
numeric reply (such as 461) is produced. -/
theorem claim10_join_without_params_panics (st : ServerSt) (selfNick : String)
    (hself : (alGet selfNick st.clients).isSome = true) :
    Client.on_join st selfNick [] = .panicked := by
  unfold Client.on_join
  cases h : alGet selfNick st.clients with
  | none => rw [h] at hself; simp at hself
  | some self => rfl

/-- C10 witness: the concrete two-client state panics on a parameterless JOIN
from alice. -/
theorem claim10_witness :
    (alGet "alice" fixStAliceOpBob.clients).isSome = true ∧
    Client.on_join fixStAliceOpBob "alice" [] = .panicked :=
  ⟨by decide, claim10_join_without_params_panics fixStAliceOpBob "alice" (by decide)⟩

/-- C2 amended: a channel MODE command with parameters is refused wholesale
(state unchanged) when the caller is neither a server operator nor a member
of the named channel; membership alone, not channel-operator rank, is the
gate the code applies before `Channel::toggle_modes`. -/
theorem claim2_amended_nonmember_cannot_alter (st : ServerSt) (client : ClientSt)
    (cname : String) (params : List String)
    (hop : client.operator = false)
    (hmem : (match alGet cname st.channels with
             | some ch => ch.has_participant client.nick
             | none => false) = false) :
    (Server.handle_channel_mode st client cname params).1 = st := by
  unfold Server.handle_channel_mode
  cases h : alGet cname st.channels with
  | none => rfl
  | some ch =>
    rw [h] at hmem
    replace hmem : ch.has_participant client.nick = false := hmem
    by_cases hp : params.length < 1
    · simp only [hp, if_true]
      split <;> rfl
    · simp [hp, hop, hmem]

/-- C2 amended witness: the non-member charlie cannot alter the modes of
`#a`. -/
theorem claim2_amended_witness :
    (Server.handle_channel_mode fixStAliceOpBob (fixClient "charlie" []) "#a" ["+m"]).1 =
      fixStAliceOpBob :=
  claim2_amended_nonmember_cannot_alter fixStAliceOpBob (fixClient "charlie" []) "#a"
    ["+m"] (by decide) (by decide)

/-- C3 amended: a KICK by a non-server-operator succeeds exactly when the
channel exists, the caller holds rank at least half-operator, and either the
caller kicks themselves or the target is a participant whose rank does not
EXCEED the caller rank — equal rank may kick. -/
theorem claim3_amended_kick_rank (st : ServerSt) (client : ClientSt)
    (cname kicked msg : String) (hop : client.operator = false) :
    (Server.kick_channel st client cname kicked msg).2.1 = true ↔
      ∃ ch, alGet (rustToLowercase cname) st.channels = some ch ∧
        ∃ m, alGet client.nick ch.participants = some m ∧ 1 ≤ roleRank m ∧
          (client.nick = kicked ∨
           ∃ mo, alGet kicked ch.participants = some mo ∧ roleRank mo ≤ roleRank m) := by
  have key : (Server.kick_channel st client cname kicked msg).2.1 =
      (match alGet (rustToLowercase cname) st.channels with
       | none => false
       | some ch => ch.is_half_operator client.nick &&
           (client.nick == kicked || ch.has_access client.nick kicked)) := by
    unfold Server.kick_channel
    cases hch : alGet (rustToLowercase cname) st.channels with
    | none => simp [hch]
    | some ch =>
      cases h1 : ch.is_half_operator client.nick with
      | false => simp [hch, hop, h1]
      | true =>
        cases h2 : (client.nick == kicked || ch.has_access client.nick kicked) with
        | false => simp [hch, hop, h1, h2]
        | true => simp [hch, hop, h1, h2]
  rw [key]
  cases hch : alGet (rustToLowercase cname) st.channels with
  | none => simp [hch]
  | some ch =>
    simp only [hch]
    constructor
    · intro h
      exact ⟨ch, rfl, (kickCond_iff ch client.nick kicked).mp h⟩
    · rintro ⟨ch2, heq, hP⟩
      injection heq with heq
      subst heq
      exact (kickCond_iff ch client.nick kicked).mpr hP

/-- C3 amended witness: the channel operator alice kicks the role-less bob
(rank 0 at most rank 2). -/
theorem claim3_amended_witness :
    (Server.kick_channel fixStAliceOpBob (fixClient "alice" ["#a"])
       "#a" "bob" "Kicked").2.1 = true :=
  (claim3_amended_kick_rank fixStAliceOpBob (fixClient "alice" ["#a"]) "#a" "bob" "Kicked"
     (by decide)).mpr
    ⟨fixChanAliceOpBob, by decide, fixOpBits, by decide, by decide,
     Or.inr ⟨fixNoBits, by decide, by decide⟩⟩

/-- C4 amended: for a non-operator joining an existing channel, once the
limit, key and invite checks pass, the numeric 474 refusal happens exactly
when the requester user prefix is byte-for-byte an element of the ban set and
not an element of the ban-exception set — exact string membership, no
wildcard matching. -/
theorem claim4_amended_ban_refusal_exact (st : ServerSt) (client : ClientSt)
    (cname password : String) (ch : Channel)
    (hch : alGet (rustToLowercase cname) st.channels = some ch)
    (hop : client.operator = false)
    (hpart : ch.has_participant client.nick = false)
    (hlimit : ch.modes.limit = 0 ∨ ch.participants.length < ch.modes.limit)
    (hkey : ch.modes.password = "" ∨ ch.modes.password = password)
    (hinv : ch.modes.invite_only = false ∨ ch.is_invited client.nick = true ∨
            ch.is_invite_exempt client.get_prefix_str = true) :
    ((Server.join_channel st client cname password).2.2.any isBanReplyEv) =
      (ch.is_banned client.get_prefix_str && !(ch.is_ban_exempt client.get_prefix_str)) ∧
    ((ch.is_banned client.get_prefix_str && !(ch.is_ban_exempt client.get_prefix_str))
        = true →
      Server.join_channel st client cname password =
        (st, false, [Ev.numeric client.nick .ErrBannedFromChan
          (cname ++ " :Cannot join channel (+b)")])) := by
  have h1 : (ch.modes.limit != 0 && decide (ch.participants.length ≥ ch.modes.limit))
      = false := by
    rcases hlimit with h | h
    · simp [h]
    · simp [Nat.not_le.mpr h]
  have h2 : (ch.modes.password.length != 0 && decide (ch.modes.password ≠ password))
      = false := by
    rcases hkey with h | h
    · simp [h]
    · simp [h]
  have h3 : (ch.modes.invite_only && !(ch.is_invited client.nick) &&
      !(ch.is_invite_exempt client.get_prefix_str)) = false := by
    rcases hinv with h | h | h <;> simp [h]
  unfold Server.join_channel
  simp only [hch, hop, hpart, Bool.not_false, Bool.true_and, Bool.false_eq_true,
    if_false, h1, h2, h3]
  cases hb : (ch.is_banned client.get_prefix_str &&
      !(ch.is_ban_exempt client.get_prefix_str)) with
  | true => simp [hb, isBanReplyEv]
  | false =>
    simp only [hb, Bool.false_eq_true, if_false]
    refine ⟨?_, by intro h; cases h⟩
    cases hcl : alGet client.nick st.clients with
    | none =>
      simp only [hcl]
      apply any_isBanReplyEv_of_raws
      intro p e hpe
      by_cases hs : (alGet p.1 st.clients).isSome = true
      · rw [if_pos hs] at hpe
        exact ⟨p.1, _, (Option.some.inj hpe).symm⟩
      · rw [if_neg hs] at hpe
        cases hpe
    | some cl =>
      simp only [hcl, List.any_append]
      have hraws : (List.filterMap
          (fun p => if (alGet p.1 st.clients).isSome = true then
            some (Ev.raw p.1 (":" ++ client.get_prefix_str ++ " JOIN " ++ cname))
          else none)
          (alSet client.nick
            { owner := false, admin := false, operator := ch.participants.length == 0,
              half_operator := false, voiced := false }
            ch.participants)).any isBanReplyEv = false := by
        apply any_isBanReplyEv_of_raws
        intro p e hpe
        by_cases hs : (alGet p.1 st.clients).isSome = true
        · rw [if_pos hs] at hpe
          exact ⟨p.1, _, (Option.some.inj hpe).symm⟩
        · rw [if_neg hs] at hpe
          cases hpe
      rw [hraws]
      simp only [Bool.false_or]
      by_cases ht : (ch.topic.text.length == 0) = true
      · simp [ht, isBanReplyEv]
      · simp [ht, isBanReplyEv]

/-- C4 amended witness: a ban entry byte-for-byte equal to the prefix of bob
refuses the join with exactly the 474 reply. -/
theorem claim4_amended_witness :
    ((Server.join_channel fixStExactBan (fixClient "bob" []) "#a" "").2.2.any
        isBanReplyEv) =
      (fixChanExactBan.is_banned (fixClient "bob" []).get_prefix_str &&
       !(fixChanExactBan.is_ban_exempt (fixClient "bob" []).get_prefix_str)) ∧
    ((fixChanExactBan.is_banned (fixClient "bob" []).get_prefix_str &&
      !(fixChanExactBan.is_ban_exempt (fixClient "bob" []).get_prefix_str)) = true →
      Server.join_channel fixStExactBan (fixClient "bob" []) "#a" "" =
        (fixStExactBan, false, [Ev.numeric (fixClient "bob" []).nick .ErrBannedFromChan
          ("#a" ++ " :Cannot join channel (+b)")])) :=
  claim4_amended_ban_refusal_exact fixStExactBan (fixClient "bob" []) "#a" ""
    fixChanExactBan (by decide) (by decide) (by decide) (Or.inl (by decide))
    (Or.inl (by decide)) (Or.inl (by decide))

/-- C5 amended: a channel message to a name that is not in the channel
registry produces exactly one reply, the `ErrNoSuchChannel` numeric (code
403) with the body "No such nick/channel". -/
theorem claim5_amended_unmapped_channel_message (st : ServerSt) (client : ClientSt)
    (is_notice : Bool) (name text : String)
    (h : alGet (rustToLowercase name) st.channels = none) :
    Server.forward_channel_message st is_notice client name text =
      [Ev.numeric client.nick .ErrNoSuchChannel (name ++ " :No such nick/channel")] := by
  unfold Server.forward_channel_message
  rw [h]

/-- C5 amended witness: a PRIVMSG from alice to the unmapped `#x`. -/
theorem claim5_amended_witness :
    Server.forward_channel_message fixStNoChannels false (fixClient "alice" []) "#x" "hi" =
      [Ev.numeric (fixClient "alice" []).nick .ErrNoSuchChannel
        ("#x" ++ " :No such nick/channel")] :=
  claim5_amended_unmapped_channel_message fixStNoChannels (fixClient "alice" []) false
    "#x" "hi" (by decide)

/-- C6 amended: in one iteration of the ping loop the session is terminated
exactly when the last-pong flag is false; otherwise the `PING` line is
emitted and the flag cleared exactly when the session is registered, and an
unregistered session keeps its flag and receives nothing. -/
theorem claim6_amended_ping_iteration (received_pong registered : Bool)
    (server_name : String) :
    ((Client.task_ping_iter received_pong registered server_name).1 = !received_pong) ∧
    ((Client.task_ping_iter received_pong registered server_name).2.2 =
      if received_pong && registered then ["PING :" ++ server_name] else []) ∧
    ((Client.task_ping_iter received_pong registered server_name).2.1 =
      (received_pong && !registered)) := by
  cases received_pong <;> cases registered <;> simp [Client.task_ping_iter]

/-- C8: a successful JOIN (with the create-on-demand step of `on_join`)
followed by a PART of the same client succeeds and returns the registry entry
of the channel to its pre-JOIN value; when the pre-JOIN population was zero
(in particular when the JOIN created the channel) the channel is absent from
the registry afterwards. -/
theorem claim8_join_then_part (st : ServerSt) (client : ClientSt)
    (cname password pmsg : String)
    (hok : (Server.join_channel (Server.join_prep st cname) client cname password).2.1
      = true) :
    (Server.part_channel
      (Server.join_channel (Server.join_prep st cname) client cname password).1
      client cname pmsg).2.1 = true ∧
    alGet (rustToLowercase cname)
      (Server.part_channel
        (Server.join_channel (Server.join_prep st cname) client cname password).1
        client cname pmsg).1.channels =
      (match alGet (rustToLowercase cname) st.channels with
       | none => none
       | some ch => if ch.participants.length = 0 then none else some ch) := by
  cases h : alGet (rustToLowercase cname) st.channels with
  | none =>
    have hprep : Server.join_prep st cname = Server.create_channel st cname := by
      unfold Server.join_prep Server.is_channel_mapped
      simp [h]
    rw [hprep] at hok ⊢
    have hch : alGet (rustToLowercase cname) (Server.create_channel st cname).channels
        = some (Channel.new (rustToLowercase cname)) := by
      unfold Server.create_channel
      simp
    obtain ⟨hpart, hst2⟩ := join_channel_success _ client cname password _ hch hok
    rw [hst2]
    have hmain := part_after_joinInsert (Server.create_channel st cname) client cname pmsg
      (Channel.new (rustToLowercase cname)) hch hpart
    refine ⟨hmain.1, ?_⟩
    rw [hmain.2]
    rfl
  | some ch =>
    have hprep : Server.join_prep st cname = st := by
      unfold Server.join_prep Server.is_channel_mapped
      simp [h]
    rw [hprep] at hok ⊢
    obtain ⟨hpart, hst2⟩ := join_channel_success _ client cname password _ h hok
    rw [hst2]
    have hmain := part_after_joinInsert st client cname pmsg ch h hpart
    exact ⟨hmain.1, hmain.2⟩

/-- C8 witness: alice joins the fresh `#a` (created by the JOIN) and parts
again; the channel is absent afterwards. -/
theorem claim8_witness :
    (Server.part_channel
      (Server.join_channel (Server.join_prep fixStNoChannels "#a") (fixClient "alice" [])
        "#a" "").1
      (fixClient "alice" []) "#a" "bye").2.1 = true ∧
    alGet (rustToLowercase "#a")
      (Server.part_channel
        (Server.join_channel (Server.join_prep fixStNoChannels "#a") (fixClient "alice" [])
          "#a" "").1
        (fixClient "alice" []) "#a" "bye").1.channels =
      (match alGet (rustToLowercase "#a") fixStNoChannels.channels with
       | none => none
       | some ch => if ch.participants.length = 0 then none else some ch) :=
  claim8_join_then_part fixStNoChannels (fixClient "alice" []) "#a" "" "bye" (by decide)

/-- C9 amended: a single-parameter NICK is accepted (nick set, no reply)
exactly when the nickname is valid AND not already mapped; a free invalid
nickname is refused with numeric 432 leaving the session unchanged, and a
mapped nickname is refused with numeric 433 leaving the session unchanged. -/
theorem claim9_amended_nick_acceptance (mapped : List String) (client : ClientSt)
    (nick : String) :
    (Client.on_nick mapped client [nick] = ({ client with nick := nick }, []) ↔
      is_nick_valid nick = true ∧ setHas nick mapped = false) ∧
    (setHas nick mapped = false → is_nick_valid nick = false →
      Client.on_nick mapped client [nick] =
        (client, [Ev.numeric client.nick .ErrErroneousNickname
          (nick ++ " :Erroneous nickname")])) ∧
    (setHas nick mapped = true →
      Client.on_nick mapped client [nick] =
        (client, [Ev.numeric client.nick .ErrNicknameInUse
          (nick ++ " :Nickname is already in use")])) := by
  unfold Client.on_nick
  by_cases hm : setHas nick mapped
  · simp [hm]
  · by_cases hv : is_nick_valid nick
    · simp [hm, hv]
    · simp [hm, hv]

/-- C9 amended witness: the free valid nickname `cat` is accepted by ann. -/
theorem claim9_amended_witness :
    Client.on_nick ["bob"] (fixClient "ann" []) ["cat"] =
      ({ fixClient "ann" [] with nick := "cat" }, []) :=
  (claim9_amended_nick_acceptance ["bob"] (fixClient "ann" []) "cat").1.mpr
    ⟨by decide, by decide⟩

end Ayame
